import Mathlib

/-!
Shallow embedding of tanbirst1/zip_filebot (a Playwright-based captcha-aware
fetcher).  The only decision logic in the repository is the verification
classifier `isVerificationText` (src/unnamed/part_001, lines 46-72); the
surrounding Express routes contribute only url-parameter validation.  We embed
the classifier, the result-object construction of `fetchWithPlaywright`, and
the early url-validation of the three route handlers, and prove the spec's
claims about them.
-/

namespace ZipFilebot

/-- Model of JS `String.prototype.toLowerCase` (ASCII-adequate): lower-case
every character. -/
def jsToLower (s : String) : String := ⟨s.data.map Char.toLower⟩

/-- `isLeadOf pat l` : the character list `pat` occurs at the very start of
`l`.  Building block for the substring check. -/
def isLeadOf : List Char → List Char → Bool
  | [], _ => true
  | _ :: _, [] => false
  | a :: as, b :: bs => a == b && isLeadOf as bs

/-- `isSubList pat l` : the character list `pat` occurs contiguously somewhere
inside `l`. -/
def isSubList (pat : List Char) : List Char → Bool
  | [] => pat.isEmpty
  | c :: rest => isLeadOf pat (c :: rest) || isSubList pat rest

/-- Model of JS `String.prototype.includes`: `jsIncludes s pat` is `true` iff
`pat` occurs as a contiguous substring of `s`. -/
def jsIncludes (s pat : String) : Bool := isSubList pat.data s.data

/-- A JS response-headers object: finitely many (name, value) string pairs,
accessed by exact key. -/
abbrev Headers := List (String × String)

/-- Model of JS property access `headers[k]` on a headers object: the value at
the first pair whose key equals `k` exactly, if any. -/
def getHeader : Headers → String → Option String
  | [], _ => none
  | (k, v) :: rest, key => if k == key then some v else getHeader rest key

/-- JS truthiness of `headers[k]` when the value, if present, is a string:
`undefined` and `""` are falsy, every other string is truthy. -/
def truthy : Option String → Bool
  | none => false
  | some v => !(v == "")

/-- The ten fixed challenge substrings of `isVerificationText`
(src/unnamed/part_001, lines 48-59). -/
def patterns : List String :=
  ["attention required",
   "checking your browser",
   "verify you are human",
   "cf-browser-verification",
   "please enable javascript and cookies",
   "captcha",
   "are you a human",
   "hcaptcha",
   "recaptcha",
   "cloudflare"]

/-- The headers hint of the classifier (src/unnamed/part_001, lines 67-71):
the `server` value, lower-cased, contains `"cloudflare"`, or the `cf-ray` /
`cf-chl-bypass` entries are truthy; otherwise the fall-through `return false`. -/
def headerHint (hs : Headers) : Bool :=
  let server := jsToLower ((getHeader hs "server").getD "")
  if jsIncludes server "cloudflare" then true
  else if truthy (getHeader hs "cf-ray") || truthy (getHeader hs "cf-chl-bypass") then true
  else false

/-- The verification classifier (src/unnamed/part_001, lines 46-72), for
well-typed inputs: `text` a string, `status` a number or `null`, `headers` a
headers object.  Mirrors the JS control flow: status check, then the pattern
loop over the lower-cased sample, then the header hints. -/
def isVerificationText (text : String) (status : Option Nat) (headers : Headers) : Bool :=
  let sample := jsToLower text
  if status == some 403 || status == some 503 then true
  else if patterns.any (fun p => jsIncludes sample p) then true
  else headerHint headers

/-- The verification classifier as JS executes it on possibly-missing
arguments: `text` may be `null`/`undefined` (normalized by `text || ""`),
`headers` may be `null`/`undefined`, in which case the property access
`headers["server"]` throws a TypeError — modelled as `Except.error ()` — but
only when control reaches it. -/
def isVerificationTextJS (text : Option String) (status : Option Nat)
    (headers : Option Headers) : Except Unit Bool :=
  let sample := jsToLower (text.getD "")
  if status == some 403 || status == some 503 then .ok true
  else if patterns.any (fun p => jsIncludes sample p) then .ok true
  else
    match headers with
    | none => .error ()
    | some hs => .ok (headerHint hs)

theorem isVerificationTextJS_some (text : Option String) (status : Option Nat)
    (headers : Headers) :
    isVerificationTextJS text status (some headers) =
      Except.ok (isVerificationText (text.getD "") status headers) := by
  by_cases h1 : (status == some 403 || status == some 503) = true <;>
    by_cases h2 : (patterns.any fun p => jsIncludes (jsToLower (text.getD "")) p) = true <;>
    simp [isVerificationTextJS, isVerificationText, h1, h2]

theorem getHeader_mem : ∀ {hs : Headers} {k v : String}, getHeader hs k = some v → (k, v) ∈ hs
  | [], _, _, h => by simp [getHeader] at h
  | (k', v') :: rest, k, v, h => by
    by_cases hk : (k' == k) = true
    · rw [getHeader, if_pos hk] at h
      obtain rfl : v' = v := by injection h
      obtain rfl : k' = k := eq_of_beq hk
      exact List.mem_cons_self _ _
    · rw [getHeader, if_neg hk] at h
      exact List.mem_cons_of_mem _ (getHeader_mem h)

theorem isLeadOf_append {pat l : List Char} (l' : List Char) (h : isLeadOf pat l = true) :
    isLeadOf pat (l ++ l') = true := by
  induction pat generalizing l with
  | nil => rfl
  | cons a as ih =>
    cases l with
    | nil => simp [isLeadOf] at h
    | cons b bs =>
      rw [List.cons_append]
      rw [isLeadOf] at h ⊢
      simp only [Bool.and_eq_true] at h ⊢
      exact ⟨h.1, ih h.2⟩

theorem isSubList_nil (l : List Char) : isSubList [] l = true := by
  cases l <;> simp [isSubList, isLeadOf, List.isEmpty]

theorem isSubList_append_right {pat l : List Char} (l' : List Char)
    (h : isSubList pat l = true) : isSubList pat (l ++ l') = true := by
  induction l with
  | nil =>
    obtain rfl : pat = [] := by
      cases pat with
      | nil => rfl
      | cons c cs => simp [isSubList, List.isEmpty] at h
    exact isSubList_nil l'
  | cons b bs ih =>
    rw [List.cons_append]
    rw [isSubList] at h ⊢
    simp only [Bool.or_eq_true] at h ⊢
    rcases h with h | h
    · exact Or.inl (isLeadOf_append l' h)
    · exact Or.inr (ih h)

theorem isSubList_append_left {pat l : List Char} (l' : List Char)
    (h : isSubList pat l = true) : isSubList pat (l' ++ l) = true := by
  induction l' with
  | nil => exact h
  | cons b bs ih =>
    rw [List.cons_append, isSubList]
    simp only [Bool.or_eq_true]
    exact Or.inr ih

theorem jsIncludes_toLower_append_right {t p : String} (u : String)
    (h : jsIncludes (jsToLower t) p = true) : jsIncludes (jsToLower (t ++ u)) p = true := by
  simp only [jsIncludes, jsToLower] at h ⊢
  rw [String.data_append, List.map_append]
  exact isSubList_append_right _ h

theorem jsIncludes_toLower_append_left {t p : String} (u : String)
    (h : jsIncludes (jsToLower t) p = true) : jsIncludes (jsToLower (u ++ t)) p = true := by
  simp only [jsIncludes, jsToLower] at h ⊢
  rw [String.data_append, List.map_append]
  exact isSubList_append_left _ h

/-- Condition 1 of the classifier as its own predicate: the status is 403 or
503. -/
def statusCond (status : Option Nat) : Bool := status == some 403 || status == some 503

/-- Condition 2: the lower-cased text contains one of the ten fixed challenge
substrings. -/
def textCond (text : String) : Bool := patterns.any (fun p => jsIncludes (jsToLower text) p)

/-- Condition 3: the `server` header value (exact key lookup, as in the code)
lower-cased contains `"cloudflare"`. -/
def serverCond (headers : Headers) : Bool :=
  jsIncludes (jsToLower ((getHeader headers "server").getD "")) "cloudflare"

/-- Condition 4 as the spec words it: a `cf-ray` or `cf-chl-bypass` header is
present, with any value. -/
def cfPresentCond (headers : Headers) : Bool :=
  (getHeader headers "cf-ray").isSome || (getHeader headers "cf-chl-bypass").isSome

/-- Condition 4 as the code implements it: a `cf-ray` or `cf-chl-bypass`
header is present with a truthy (non-empty) value. -/
def cfTruthyCond (headers : Headers) : Bool :=
  truthy (getHeader headers "cf-ray") || truthy (getHeader headers "cf-chl-bypass")

/-- Follows the spec's words: the pure, order-independent disjunction of the
four conditions, with condition 4 read literally as key presence.  To be
compared with the code's `isVerificationText`. -/
def isVerificationSpec (text : String) (status : Option Nat) (headers : Headers) : Bool :=
  statusCond status || textCond text || serverCond headers || cfPresentCond headers

/-- The pure disjunction of the four conditions with condition 4 amended to
the code's truthiness test. -/
def isVerificationSpecAmended (text : String) (status : Option Nat) (headers : Headers) : Bool :=
  statusCond status || textCond text || serverCond headers || cfTruthyCond headers

theorem headerHint_eq_or (hs : Headers) :
    headerHint hs = (serverCond hs || cfTruthyCond hs) := by
  simp only [headerHint, serverCond, cfTruthyCond]
  cases h3 : jsIncludes (jsToLower ((getHeader hs "server").getD "")) "cloudflare" <;>
    cases h4 : (truthy (getHeader hs "cf-ray") || truthy (getHeader hs "cf-chl-bypass")) <;>
      simp [h3, h4]

theorem isVerificationText_eq_disj (text : String) (status : Option Nat) (headers : Headers) :
    isVerificationText text status headers =
      (statusCond status || textCond text || serverCond headers || cfTruthyCond headers) := by
  simp only [isVerificationText, statusCond, textCond]
  cases h1 : (status == some 403 || status == some 503) <;>
    cases h2 : (patterns.any fun p => jsIncludes (jsToLower text) p) <;>
      simp [h1, h2, headerHint_eq_or]

theorem textCond_append_right {t : String} (u : String) (h : textCond t = true) :
    textCond (t ++ u) = true := by
  rw [textCond, List.any_eq_true] at h ⊢
  obtain ⟨p, hp, hinc⟩ := h
  exact ⟨p, hp, jsIncludes_toLower_append_right u hinc⟩

theorem textCond_append_left {t : String} (u : String) (h : textCond t = true) :
    textCond (u ++ t) = true := by
  rw [textCond, List.any_eq_true] at h ⊢
  obtain ⟨p, hp, hinc⟩ := h
  exact ⟨p, hp, jsIncludes_toLower_append_left u hinc⟩

/-- The result object of a successful `fetchWithPlaywright` call
(src/unnamed/part_001, lines 117-125). -/
structure FetchResult where
  ok : Bool
  verification_required : Bool
  status : Option Nat
  headers : Headers
  html : String
  textSample : String
  screenshot : String

/-- Construction of the result object on the success path of
`fetchWithPlaywright` (src/unnamed/part_001, lines 110-125), as a function of
what the browser collaborator produced: navigation status and headers (a
`null` response leaves `none` / `[]`), rendered html, the text sample, and
the base64 screenshot.  `ok` is `!isVerification` and `verification_required`
is `!!isVerification`, the identity on a boolean. -/
def mkFetchResult (status : Option Nat) (headers : Headers)
    (html textSample screenshot : String) : FetchResult :=
  let isVerification := isVerificationText textSample status headers
  { ok := !isVerification,
    verification_required := isVerification,
    status := status,
    headers := headers,
    html := html,
    textSample := textSample,
    screenshot := screenshot }

/-- An HTTP response as status code plus body text. -/
structure HttpResponse where
  status : Nat
  body : String
deriving DecidableEq

/-- JS falsiness of the `url` query parameter (`undefined` or the empty
string). -/
def jsFalsyStr : Option String → Bool
  | none => true
  | some v => v == ""

/-- Characters allowed in a URL scheme after the first: ASCII alphanumerics,
`+`, `-`, `.` (WHATWG URL). -/
def schemeChar (c : Char) : Bool := c.isAlphanum || c == '+' || c == '-' || c == '.'

/-- Scan for the `:` terminating a URL scheme, accumulating scheme
characters in reverse. -/
def schemeAux : List Char → List Char → Option (List Char)
  | [], _ => none
  | c :: rest, acc =>
    if c == ':' then some acc.reverse
    else if schemeChar c then schemeAux rest (c :: acc) else none

/-- Simplified model of the scheme check `new URL(raw)` performs: the scheme
is an ASCII letter followed by scheme characters up to the first `:`,
lower-cased in the serialization; `none` when no well-formed scheme exists,
in which case the real parser throws.  Host and path validation are not
modelled. -/
def urlScheme (s : String) : Option String :=
  match s.data with
  | [] => none
  | c :: rest => if c.isAlpha then (schemeAux rest [c]).map (fun cs => jsToLower ⟨cs⟩) else none

/-- `normalizeTarget` (src/unnamed/part_001, lines 30-38): `null` for a
missing argument (`new URL(undefined)` throws), for a string without a valid
scheme, and for a scheme other than `http` / `https`; otherwise the target
url (the model returns the input in place of the WHATWG serialization). -/
def normalizeTarget (raw : Option String) : Option String :=
  match raw with
  | none => none
  | some s =>
    match urlScheme s with
    | none => none
    | some sch => if sch == "http" || sch == "https" then some s else none

/-- Early url-validation of the `/index` route (src/server.js, lines 6-10): a
falsy `url` is answered with 400 and a message body; otherwise the handler
proceeds to the browser fetch (`none`). -/
def indexRouteEarly (url : Option String) : Option HttpResponse :=
  if jsFalsyStr url then some ⟨400, "Missing ?url parameter"⟩ else none

/-- Early url-validation of the `/api/fetch.js` route (src/unnamed/part_001,
lines 135-138): a `url` that `normalizeTarget` rejects is answered with 400
and a JSON error, modelled by its error string. -/
def apiFetchEarly (url : Option String) : Option HttpResponse :=
  match normalizeTarget url with
  | none => some ⟨400, "Invalid or missing url"⟩
  | some _ => none

/-- Early url-validation of the `/` route of the third variant
(src/unnamed/part_001, lines 262-264): a falsy `url` is answered with
`res.send(...)`, whose status defaults to 200. -/
def rootRouteEarly (url : Option String) : Option HttpResponse :=
  if jsFalsyStr url then some ⟨200, "Missing ?url parameter"⟩ else none

/-- Claim C1 fails as stated: with `cf-ray` present but holding the empty
string, and no other signal, the classifier returns `false` — the JS `||`
tests truthiness and `""` is falsy — not `true`. -/
theorem cf_header_empty_value_ignored :
    getHeader [("cf-ray", "")] "cf-ray" = some "" ∧
      isVerificationText "" (some 200) [("cf-ray", "")] = false :=
  ⟨rfl, rfl⟩

/-- Claim C1 (amended): if the `cf-ray` or the `cf-chl-bypass` header is
present with a non-empty value, the classifier returns `true` for every text
and status. -/
theorem cf_header_truthy_forces_true (text : String) (status : Option Nat) (headers : Headers)
    (h : (∃ v, getHeader headers "cf-ray" = some v ∧ v ≠ "") ∨
         (∃ v, getHeader headers "cf-chl-bypass" = some v ∧ v ≠ "")) :
    isVerificationText text status headers = true := by
  have h4 : cfTruthyCond headers = true := by
    rcases h with ⟨v, hv, hne⟩ | ⟨v, hv, hne⟩ <;>
      simp [cfTruthyCond, truthy, hv, hne]
  rw [isVerificationText_eq_disj]
  simp [h4]

theorem cf_header_truthy_forces_true_witness :
    isVerificationText "hello" (some 200) [("cf-ray", "abc123")] = true :=
  cf_header_truthy_forces_true "hello" (some 200) [("cf-ray", "abc123")]
    (Or.inl ⟨"abc123", rfl, by decide⟩)

/-- Claim C2 fails as stated: the code looks up `headers["server"]` by exact
key, so a `Server` key whose value is exactly `"cloudflare"` is not found and
the classifier returns `false`, although a case-insensitive key lookup would
match. -/
theorem server_key_lookup_case_sensitive :
    ("Server", "cloudflare") ∈ ([("Server", "cloudflare")] : Headers) ∧
      jsToLower "Server" = "server" ∧
      isVerificationText "" (some 200) [("Server", "cloudflare")] = false :=
  ⟨List.mem_cons_self _ _, rfl, rfl⟩

/-- Claim C2 (amended): if the headers contain the exact key `"server"` with
a value containing `"cloudflare"` in any letter case, the classifier returns
`true` for every text and status. -/
theorem server_value_cloudflare_forces_true (text : String) (status : Option Nat)
    (headers : Headers) (v : String)
    (hv : getHeader headers "server" = some v)
    (hc : jsIncludes (jsToLower v) "cloudflare" = true) :
    isVerificationText text status headers = true := by
  have h3 : serverCond headers = true := by simp [serverCond, hv, hc]
  rw [isVerificationText_eq_disj]
  simp [h3]

theorem server_value_cloudflare_forces_true_witness :
    isVerificationText "hello" (some 200) [("server", "CloudFlare")] = true :=
  server_value_cloudflare_forces_true "hello" (some 200) [("server", "CloudFlare")]
    "CloudFlare" rfl (by decide)

/-- Claim C3 fails as stated: with a `null`/`undefined` headers argument and
neither the status nor the text condition matching, the property access
`headers["server"]` raises a TypeError instead of returning a boolean. -/
theorem null_headers_raises :
    isVerificationTextJS (some "hello") (some 200) none = Except.error () :=
  rfl

/-- Claim C3 (amended): with `headers` an actual mapping the classifier
always returns a boolean, for every (possibly absent) text and status; and an
absent text is treated exactly like the empty string. -/
theorem classifier_total_on_mapping_headers (text : Option String) (status : Option Nat)
    (headers : Headers) :
    (∃ b : Bool, isVerificationTextJS text status (some headers) = Except.ok b) ∧
      isVerificationTextJS none status (some headers) =
        isVerificationTextJS (some "") status (some headers) := by
  refine ⟨⟨isVerificationText (text.getD "") status headers,
    isVerificationTextJS_some text status headers⟩, ?_⟩
  rw [isVerificationTextJS_some, isVerificationTextJS_some]
  rfl

/-- Claim C4: with status outside {403, 503} (or absent), no challenge
substring in the lower-cased text, no `"cloudflare"` in the value of any
server-named header (case-insensitive key reading), and no `cf-ray` /
`cf-chl-bypass` key, the classifier returns `false`. -/
theorem classifier_false_without_signals (text : String) (status : Option Nat)
    (headers : Headers)
    (h403 : status ≠ some 403) (h503 : status ≠ some 503)
    (htext : ∀ p ∈ patterns, jsIncludes (jsToLower text) p = false)
    (hserver : ∀ kv ∈ headers, jsToLower kv.1 = "server" →
      jsIncludes (jsToLower kv.2) "cloudflare" = false)
    (hray : getHeader headers "cf-ray" = none)
    (hchl : getHeader headers "cf-chl-bypass" = none) :
    isVerificationText text status headers = false := by
  have h1 : statusCond status = false := by
    simp [statusCond, h403, h503]
  have h2 : textCond text = false := by
    rw [textCond]
    rw [List.any_eq_false]
    intro p hp
    simp [htext p hp]
  have h3 : serverCond headers = false := by
    rw [serverCond]
    cases hs : getHeader headers "server" with
    | none => rfl
    | some v =>
      have hmem : ("server", v) ∈ headers := getHeader_mem hs
      have := hserver _ hmem (by rfl)
      simpa using this
  have h4 : cfTruthyCond headers = false := by
    simp [cfTruthyCond, hray, hchl, truthy]
  rw [isVerificationText_eq_disj]
  simp [h1, h2, h3, h4]

theorem classifier_false_without_signals_witness :
    isVerificationText "Welcome to our site" (some 200) [] = false :=
  classifier_false_without_signals "Welcome to our site" (some 200) []
    (by decide) (by decide) (by decide) (by decide) rfl rfl

/-- Claim C5 fails as stated: the `/` route of the third variant answers a
missing `url` with `res.send(...)`, i.e. HTTP status 200 and a message body,
not 400. -/
theorem root_route_missing_url_status_200 :
    rootRouteEarly none = some ⟨200, "Missing ?url parameter"⟩ ∧ (200 : Nat) ≠ 400 :=
  ⟨rfl, by decide⟩

/-- Claim C5 (amended): a falsy (missing or empty) `url` yields HTTP 400 on
the `/index` route; a missing `url`, or one rejected by `normalizeTarget`,
yields HTTP 400 on `/api/fetch.js`; but the `/` route variant answers a falsy
`url` with HTTP 200 and a message body. -/
theorem url_validation_per_route :
    (∀ url, jsFalsyStr url = true →
        indexRouteEarly url = some ⟨400, "Missing ?url parameter"⟩) ∧
      apiFetchEarly none = some ⟨400, "Invalid or missing url"⟩ ∧
      (∀ u, normalizeTarget (some u) = none →
        apiFetchEarly (some u) = some ⟨400, "Invalid or missing url"⟩) ∧
      (∀ url, jsFalsyStr url = true →
        rootRouteEarly url = some ⟨200, "Missing ?url parameter"⟩) := by
  refine ⟨?_, rfl, ?_, ?_⟩
  · intro url h
    simp [indexRouteEarly, h]
  · intro u h
    simp [apiFetchEarly, h]
  · intro url h
    simp [rootRouteEarly, h]

theorem url_validation_per_route_witness :
    jsFalsyStr none = true ∧
      indexRouteEarly none = some ⟨400, "Missing ?url parameter"⟩ ∧
      normalizeTarget (some "not a url") = none ∧
      apiFetchEarly (some "not a url") = some ⟨400, "Invalid or missing url"⟩ ∧
      rootRouteEarly none = some ⟨200, "Missing ?url parameter"⟩ :=
  ⟨rfl, url_validation_per_route.1 none rfl, by decide,
    url_validation_per_route.2.2.1 "not a url" (by decide),
    url_validation_per_route.2.2.2 none rfl⟩

/-- Claim C6: a status of 403 or 503 forces a `true` verdict, regardless of
text and headers. -/
theorem status_403_503_forces_true (text : String) (status : Option Nat) (headers : Headers)
    (h : status = some 403 ∨ status = some 503) :
    isVerificationText text status headers = true := by
  have h1 : statusCond status = true := by
    rcases h with rfl | rfl <;> rfl
  rw [isVerificationText_eq_disj]
  simp [h1]

theorem status_403_503_forces_true_witness :
    isVerificationText "" (some 503) [] = true :=
  status_403_503_forces_true "" (some 503) [] (Or.inr rfl)

/-- Claim C7: when any of the ten fixed patterns occurs in the lower-cased
text — which covers mixed-case occurrences and occurrences embedded in longer
words — the classifier returns `true` for every status and headers. -/
theorem challenge_substring_forces_true (text : String) (status : Option Nat)
    (headers : Headers) (p : String) (hp : p ∈ patterns)
    (h : jsIncludes (jsToLower text) p = true) :
    isVerificationText text status headers = true := by
  have h2 : textCond text = true := by
    rw [textCond, List.any_eq_true]
    exact ⟨p, hp, h⟩
  rw [isVerificationText_eq_disj]
  simp [h2]

theorem challenge_substring_forces_true_witness :
    "captcha" ∈ patterns ∧
      jsIncludes (jsToLower "Complete the reCAPTCHAs now") "captcha" = true ∧
      isVerificationText "Complete the reCAPTCHAs now" (some 200) [] = true :=
  ⟨by decide, by decide,
    challenge_substring_forces_true "Complete the reCAPTCHAs now" (some 200) []
      "captcha" (by decide) (by decide)⟩

/-- Claim C8 fails as stated: on a `cf-ray` header holding the empty string,
the disjunction of the four conditions as the spec words them (condition 4:
key presence) is `true` while the code's ordered evaluation returns
`false`. -/
theorem ordered_vs_spec_disjunction_differ :
    isVerificationSpec "" (some 200) [("cf-ray", "")] = true ∧
      isVerificationText "" (some 200) [("cf-ray", "")] = false :=
  ⟨rfl, rfl⟩

/-- Claim C8 (amended): the ordered, short-circuiting evaluation of the
classifier equals, on every input, the pure order-independent disjunction of
its four conditions once condition 4 is the truthiness test the code
performs. -/
theorem ordered_eq_amended_disjunction (text : String) (status : Option Nat)
    (headers : Headers) :
    isVerificationText text status headers = isVerificationSpecAmended text status headers :=
  isVerificationText_eq_disj text status headers

/-- Claim C9: in every result object built on the success path of
`fetchWithPlaywright`, the `ok` field is the boolean negation of the
`verification_required` field. -/
theorem ok_negates_verification_required (status : Option Nat) (headers : Headers)
    (html textSample screenshot : String) :
    (mkFetchResult status headers html textSample screenshot).ok =
      !(mkFetchResult status headers html textSample screenshot).verification_required :=
  rfl

/-- Claim C10: the classifier is monotone in the text argument: a `true`
verdict survives appending or prepending arbitrary text. -/
theorem classifier_monotone_in_text (t u : String) (status : Option Nat) (headers : Headers)
    (h : isVerificationText t status headers = true) :
    isVerificationText (t ++ u) status headers = true ∧
      isVerificationText (u ++ t) status headers = true := by
  rw [isVerificationText_eq_disj] at h
  simp only [Bool.or_eq_true] at h
  refine ⟨?_, ?_⟩ <;> rw [isVerificationText_eq_disj] <;> simp only [Bool.or_eq_true]
  · rcases h with ((h1 | h2) | h3) | h4
    · exact Or.inl (Or.inl (Or.inl h1))
    · exact Or.inl (Or.inl (Or.inr (textCond_append_right u h2)))
    · exact Or.inl (Or.inr h3)
    · exact Or.inr h4
  · rcases h with ((h1 | h2) | h3) | h4
    · exact Or.inl (Or.inl (Or.inl h1))
    · exact Or.inl (Or.inl (Or.inr (textCond_append_left u h2)))
    · exact Or.inl (Or.inr h3)
    · exact Or.inr h4

theorem classifier_monotone_in_text_witness :
    isVerificationText "captcha" (some 200) [] = true ∧
      isVerificationText ("captcha" ++ "!") (some 200) [] = true ∧
      isVerificationText ("!" ++ "captcha") (some 200) [] = true := by
  have h := classifier_monotone_in_text "captcha" "!" (some 200) [] (by decide)
  exact ⟨by decide, h.1, h.2⟩

end ZipFilebot
